import Mathlib

/-!
Verification development for the incremental document-understanding
pipeline (ai_workflow subsystem): a shallow embedding of the node
functions of `src/graphs/nodes/regular_nodes.py`, of the persistence
layer of `src/databases/database.py`, and of the pipeline state of
`src/schemas/states.py`, together with theorems settling the spec's
claims about them.

The language-understanding collaborator (prompt + model invocation) is
external to the repository; following the spec's capability-interface
view, each node that invokes it takes the collaborator as an explicit
function argument.  The collaborator's structured responses are
modelled with `Option`: `none` stands for a response lacking the
expected attribute (Python `hasattr` failing or the value being
`None`).
-/

namespace AIWorkflow

/-- `LastAppearingCharacter` from `src/schemas/data_classes.py` as used by
the nodes: a recognized-name record with a name and a hint. -/
structure LastAppearingCharacter where
  name : String
  hint : String
deriving DecidableEq, Repr

/-- `Profile` from `src/schemas/data_classes.py` as constructed in
`profile_retriever_creator` and `profile_refresher`: name, hint, age, role,
physical characteristics, personality, events, relationships, aliases, id. -/
structure Profile where
  name : String
  hint : String
  age : String
  role : String
  physical_characteristics : List String
  personality : String
  events : List String
  relationships : List String
  aliases : List String
  id : String
deriving DecidableEq, Repr

/-- The per-profile record of the enrichment collaborator's structured
response, as read field-by-field in `profile_refresher` (note the field
named `relations`, copied into `Profile.relationships`). -/
structure ProfileData where
  name : String
  hint : String
  age : String
  role : String
  physical_characteristics : List String
  personality : String
  events : List String
  relations : List String
  aliases : List String
  id : String
deriving DecidableEq, Repr

/-- The dictionary stored in the `chunk_character_profiles` table by
`profile_refresher` (all `Profile` fields except `id`). -/
structure StoredProfile where
  name : String
  hint : String
  age : String
  role : String
  physical_characteristics : List String
  personality : String
  events : List String
  relationships : List String
  aliases : List String
deriving DecidableEq, Repr

/-- One row of the `chunks` table (`chunk_id` is the SQLite
AUTOINCREMENT primary key, assigned at insertion). -/
structure ChunkRow where
  chunk_id : Nat
  chunk_index : Nat
  chunk_text : String
deriving DecidableEq, Repr

/-- One row of the `chunk_character_profiles` table (`id` is a generated
uuid, modelled as a counter-generated distinct string). -/
structure ProfileRow where
  id : String
  chunk_id : Nat
  profile : StoredProfile
deriving DecidableEq, Repr

/-- The state of the `CharacterDatabase` relevant to the pipeline: the
`chunks` table, the `chunk_character_profiles` table, the AUTOINCREMENT
counter for chunk ids and a counter modelling uuid generation. -/
structure DB where
  chunks : List ChunkRow
  nextChunkId : Nat
  profileRows : List ProfileRow
  nextUuid : Nat
deriving DecidableEq, Repr

/-- `CharacterDatabase.insert_chunk`: insert one row into `chunks` and
return the store-assigned `chunk_id` (`cursor.lastrowid`). -/
def insert_chunk (chunk_index : Nat) (chunk_text : String) (db : DB) : Nat × DB :=
  (db.nextChunkId,
   { db with
       chunks := db.chunks ++ [⟨db.nextChunkId, chunk_index, chunk_text⟩],
       nextChunkId := db.nextChunkId + 1 })

/-- `CharacterDatabase.insert_chunk_character_profile`: append one row to
`chunk_character_profiles` under a fresh generated id. -/
def insert_chunk_character_profile (chunk_id : Nat) (profile : StoredProfile)
    (db : DB) : String × DB :=
  let uuid := "u" ++ toString db.nextUuid
  (uuid,
   { db with
       profileRows := db.profileRows ++ [⟨uuid, chunk_id, profile⟩],
       nextUuid := db.nextUuid + 1 })

/-- The pipeline `State` of `src/schemas/states.py`, plus the
`chunk_index_to_id` entry the chunker node adds to the running state.
The one-shot chunk generator is modelled as the list of chunks not yet
consumed (`next` takes the head; `StopIteration` is the empty list).
The `chunk_index_to_id` dict is an association list with distinct keys. -/
structure State where
  file_path : String
  chunk_generator : List String
  current_chunk : String
  previous_chunk : String
  last_profiles : Option (List Profile)
  last_appearing_characters : Option (List LastAppearingCharacter)
  no_more_chunks : Bool
  last_summary : String
  chunk_index : Nat
  chunk_index_to_id : List (Nat × Nat)
deriving DecidableEq, Repr

/-- Python `dict.get(k, None)` on the `chunk_index_to_id` mapping. -/
def dictGet (m : List (Nat × Nat)) (k : Nat) : Option Nat :=
  match m with
  | [] => none
  | (a, b) :: rest => if a = k then some b else dictGet rest k

/-- `initial_state` of `src/schemas/states.py` (generator empty until the
chunker populates it; the mapping entry absent, modelled as empty). -/
def initial_state (path : String) : State :=
  { file_path := path
    chunk_generator := []
    current_chunk := ""
    previous_chunk := ""
    last_profiles := none
    last_appearing_characters := none
    no_more_chunks := false
    last_summary := ""
    chunk_index := 0
    chunk_index_to_id := [] }

/-- The enumerated insertion loop of the `chunker` node (lines 28-31):
insert each chunk at its enumeration index, recording index ↦ assigned id. -/
def insertChunksFrom (idx : Nat) (cs : List String) (db : DB) :
    List (Nat × Nat) × DB :=
  match cs with
  | [] => ([], db)
  | c :: rest =>
    let ins := insert_chunk idx c db
    let tailRes := insertChunksFrom (idx + 1) rest ins.2
    ((idx, ins.1) :: tailRes.1, tailRes.2)

/-- The `chunker` node.  The file system, file reading and the external
`TextChunker.chunk_text_arabic_optimized` splitter are passed in as
functions (`path_exists` models `os.path.exists`).  On a missing path the
node raises `FileNotFoundError` before touching the store; on success it
persists every chunk in order and returns the fresh generator and the
index-to-identity mapping (merged into the running state by the graph). -/
def chunker (path_exists : String → Bool) (read_file : String → String)
    (chunk_text : String → List String) (s : State) (db : DB) :
    Except String State × DB :=
  if s.file_path = "" ∨ path_exists s.file_path = false then
    (.error ("File not found: " ++ s.file_path), db)
  else
    let text := read_file s.file_path
    let chunks := chunk_text text
    let res := insertChunksFrom 0 chunks db
    (.ok { s with chunk_generator := chunks, chunk_index_to_id := res.1 }, res.2)

/-- The `first_name_querier` node: build the overlap window (trailing
third of the previous chunk, a single space, the full current chunk),
send it to the recognition collaborator, and set the mention list —
empty when the response lacks a `characters` attribute. -/
def first_name_querier
    (recognize : String → Option (List LastAppearingCharacter))
    (s : State) : State :=
  let third_of_length_of_previous_chunk := s.previous_chunk.length / 3
  let context :=
    s.previous_chunk.drop (2 * third_of_length_of_previous_chunk)
      ++ " " ++ s.current_chunk
  let characters := (recognize context).getD []
  { s with last_appearing_characters := some characters }

/-- The `second_name_querier` node: send the current rolling summary to
the recognition collaborator and set the mention list — empty when the
response lacks a `characters` attribute. -/
def second_name_querier
    (recognize : String → Option (List LastAppearingCharacter))
    (s : State) : State :=
  let context := s.last_summary
  let characters := (recognize context).getD []
  { s with last_appearing_characters := some characters }

/-- The skeleton profile built by `profile_retriever_creator` for one
mention: only name and hint populated, every other field empty. -/
def mkSkeleton (c : LastAppearingCharacter) : Profile :=
  { name := c.name
    hint := c.hint
    age := ""
    role := ""
    physical_characteristics := []
    personality := ""
    events := []
    relationships := []
    aliases := []
    id := "" }

/-- The `profile_retriever_creator` node: iterate over
`last_appearing_characters` building one fresh skeleton profile per
mention, and replace `last_profiles` with that list.  Iterating a `None`
mention list would raise in Python, hence the `Option` result; the store
is passed through untouched (the node performs no persistence). -/
def profile_retriever_creator (s : State) (db : DB) : Option (State × DB) :=
  match s.last_appearing_characters with
  | none => none
  | some chars =>
    some ({ s with last_profiles := some (chars.map mkSkeleton) }, db)

/-- `Profile` built from one record of the enrichment response
(`profile_refresher` lines 138-149). -/
def profileOfData (d : ProfileData) : Profile :=
  { name := d.name
    hint := d.hint
    age := d.age
    role := d.role
    physical_characteristics := d.physical_characteristics
    personality := d.personality
    events := d.events
    relationships := d.relations
    aliases := d.aliases
    id := d.id }

/-- The dictionary persisted for one record of the enrichment response
(`profile_refresher` lines 151-161; no `id` key). -/
def storedOfData (d : ProfileData) : StoredProfile :=
  { name := d.name
    hint := d.hint
    age := d.age
    role := d.role
    physical_characteristics := d.physical_characteristics
    personality := d.personality
    events := d.events
    relationships := d.relations
    aliases := d.aliases }

/-- The `profile_refresher` node.  The enrichment collaborator receives
the rolling summary and the current profile list (the source sends their
string renderings) and answers with a profile list, or declines —
`none` models all three decline conditions of line 127 (`response is
None`, missing `profiles` attribute, `profiles is None`).  On decline the
node warns and returns the state's profile list unchanged with no
persistence.  On success it rebuilds each profile and, when the current
`chunk_index` has a mapped chunk identity, appends one snapshot row per
profile under that identity. -/
def profile_refresher
    (enrich : String → Option (List Profile) → Option (List ProfileData))
    (s : State) (db : DB) : State × DB :=
  match enrich s.last_summary s.last_profiles with
  | none => ({ s with last_profiles := s.last_profiles }, db)
  | some pds =>
    let updated_profiles := pds.map profileOfData
    let chunk_id := dictGet s.chunk_index_to_id s.chunk_index
    let db2 :=
      match chunk_id with
      | none => db
      | some cid =>
        pds.foldl (fun d pd => (insert_chunk_character_profile cid (storedOfData pd) d).2) db
    ({ s with last_profiles := some updated_profiles }, db2)

/-- The `chunk_updater` node: pull the next chunk from the one-shot
generator.  On success the old current chunk becomes the previous chunk
and the index increments; on exhaustion (`StopIteration`) only the
terminal `no_more_chunks` flag is set. -/
def chunk_updater (s : State) : State :=
  match s.chunk_generator with
  | current_chunk :: rest =>
    { s with
        previous_chunk := s.current_chunk
        current_chunk := current_chunk
        no_more_chunks := false
        chunk_index := s.chunk_index + 1
        chunk_generator := rest }
  | [] => { s with no_more_chunks := true }

/-- The `summarizer` node: build the summary window (trailing third of
the last summary, a single space, the current chunk), send it with the
current mention list to the summarization collaborator, and replace the
rolling summary with the response. -/
def summarizer
    (summarize : String → Option (List LastAppearingCharacter) → String)
    (s : State) : State :=
  let third_of_length_of_last_summary := s.last_summary.length / 3
  let context :=
    s.last_summary.drop (2 * third_of_length_of_last_summary)
      ++ " " ++ s.current_chunk
  { s with last_summary := summarize context s.last_appearing_characters }

/-- Modelled from the spec: one processing cycle of the orchestrator of
§4.6 (the LangGraph wiring itself is not part of the sources; §2 gives
the control flow "advance chunk → recognize entities from overlap window
→ recognize entities from summary → synthesize skeleton profiles →
enrich profiles against summary → refresh summary").  This function is
the body after a successful chunk advance; each node merges its returned
fields into the running state (last-writer-wins).  The `none` branch is
unreachable because the queriers always produce a mention list. -/
def runCycle
    (recognize : String → Option (List LastAppearingCharacter))
    (enrich : String → Option (List Profile) → Option (List ProfileData))
    (summarize : String → Option (List LastAppearingCharacter) → String)
    (s : State) (db : DB) : Option (State × DB) :=
  let s2 := first_name_querier recognize s
  let s3 := second_name_querier recognize s2
  match profile_retriever_creator s3 db with
  | none => none
  | some (s4, db4) =>
    let r5 := profile_refresher enrich s4 db4
    some (summarizer summarize r5.1, r5.2)

/-- Modelled from the spec: the orchestrator loop of §4.6 — advance the
chunk cursor; when the terminal flag is set the machine is `done` and no
further state runs for that cycle, otherwise run the per-cycle states
and repeat.  Fuel bounds the recursion; one unit is spent per advance. -/
def runLoop
    (recognize : String → Option (List LastAppearingCharacter))
    (enrich : String → Option (List Profile) → Option (List ProfileData))
    (summarize : String → Option (List LastAppearingCharacter) → String)
    (fuel : Nat) (s : State) (db : DB) : State × DB :=
  match fuel with
  | 0 => (s, db)
  | fuel' + 1 =>
    let s1 := chunk_updater s
    if s1.no_more_chunks then (s1, db)
    else
      match runCycle recognize enrich summarize s1 db with
      | none => (s1, db)
      | some (s', db') => runLoop recognize enrich summarize fuel' s' db'

/-- Modelled from the spec: a whole document run of §4.6 — `start` runs
the Chunker, obtaining the generator and the index-to-identity mapping,
then the loop runs until the chunk sequence is exhausted.  An input
error fails the run before any cycle. -/
def run_pipeline (path_exists : String → Bool) (read_file : String → String)
    (chunk_text : String → List String)
    (recognize : String → Option (List LastAppearingCharacter))
    (enrich : String → Option (List Profile) → Option (List ProfileData))
    (summarize : String → Option (List LastAppearingCharacter) → String)
    (s : State) (db : DB) : Except String (State × DB) :=
  match chunker path_exists read_file chunk_text s db with
  | (.error e, _) => .error e
  | (.ok s0, db0) =>
    .ok (runLoop recognize enrich summarize (s0.chunk_generator.length + 1) s0 db0)

/-- Modelled from the spec: the overlap window of §4.2a, "the trailing
third of the previous chunk concatenated with the full current chunk" —
the suffix of the previous chunk starting at character index
2·⌊len/3⌋, one space, the current chunk. -/
def spec_overlap_window (previous current : String) : String :=
  previous.drop (2 * (previous.length / 3)) ++ " " ++ current

/-- Modelled from the spec: the summary-refresh input window of §4.5,
"the trailing third of the previous summary concatenated with the
current chunk" — the suffix of the summary starting at character index
2·⌊len/3⌋, one space, the current chunk. -/
def spec_summary_window (summary current : String) : String :=
  summary.drop (2 * (summary.length / 3)) ++ " " ++ current

/-- The index ↦ assigned-identity pairs the chunker's insertion loop is
expected to produce when enumeration starts at `idx` and the store's
AUTOINCREMENT counter stands at `firstId`. -/
def pairsSpec (idx firstId : Nat) : List String → List (Nat × Nat)
  | [] => []
  | _ :: rest => (idx, firstId) :: pairsSpec (idx + 1) (firstId + 1) rest

/-- The `chunks`-table rows the chunker's insertion loop is expected to
append, in order. -/
def rowsSpec (firstId idx : Nat) : List String → List ChunkRow
  | [] => []
  | c :: rest => ⟨firstId, idx, c⟩ :: rowsSpec (firstId + 1) (idx + 1) rest

/- Concrete two-chunk scenario with a deterministic collaborator, used
to evaluate the pipeline on the spec's own test document: chunk 1
mentions Ali, chunk 2 mentions Ali and Sara, the collaborator recognizes
those names on both cycles and enriches every profile it is given. -/

/-- The two chunks of the scenario document. -/
def scenarioChunks : List String := ["Ali", "Ali Sara"]

/-- Recognition stub: names the collaborator reports for each text
window that occurs in the scenario run (cycle 2's windows carry Sara). -/
def scenarioRecognize (t : String) : Option (List LastAppearingCharacter) :=
  if t = "i Ali Sara" ∨ t = "SUM1" then
    some [⟨"Ali", "protagonist"⟩, ⟨"Sara", "newcomer"⟩]
  else
    some [⟨"Ali", "protagonist"⟩]

/-- Enrichment stub: enrich every profile received, keeping its name and
hint. -/
def scenarioEnrich (_t : String) (ps : Option (List Profile)) :
    Option (List ProfileData) :=
  some ((ps.getD []).map fun p =>
    { name := p.name
      hint := p.hint
      age := "30"
      role := "hero"
      physical_characteristics := ["tall"]
      personality := "calm"
      events := ["arrives"]
      relations := []
      aliases := []
      id := "ext-" ++ p.name })

/-- Summarization stub: deterministic summaries per cycle. -/
def scenarioSummarize (t : String) (_names : Option (List LastAppearingCharacter)) : String :=
  if t = " Ali" then "SUM1" else "SUM2"

/-- The scenario run: empty store (AUTOINCREMENT at 1), the initial
pipeline state on an existing path, the stub collaborators. -/
def scenarioRun : Except String (State × DB) :=
  run_pipeline (fun p => p = "book.txt") (fun _ => "Ali Ali Sara")
    (fun _ => scenarioChunks) scenarioRecognize scenarioEnrich scenarioSummarize
    (initial_state "book.txt") ⟨[], 1, [], 0⟩

/-- The enriched profile record for Ali used as the pre-existing
`last_profiles` entry in the Profile Synthesis counterexample. -/
def enrichedAli : Profile :=
  { name := "Ali"
    hint := "protagonist"
    age := "30"
    role := "hero"
    physical_characteristics := ["tall"]
    personality := "calm"
    events := ["arrives"]
    relationships := ["Sara"]
    aliases := []
    id := "ext-Ali" }

/-- A pipeline state in which Ali is already represented in
`last_profiles` by an enriched record while the cycle's mention list
names Ali again. -/
def synthState : State :=
  { initial_state "book.txt" with
      last_profiles := some [enrichedAli]
      last_appearing_characters := some [⟨"Ali", "protagonist"⟩] }

/-! Helper lemmas about the chunker's insertion loop. -/

/-- The insertion loop appends exactly one row per chunk, in enumeration
order, assigning consecutive store identities, and records each
index ↦ identity pair. -/
theorem insertChunksFrom_eq (cs : List String) : ∀ (idx : Nat) (db : DB),
    insertChunksFrom idx cs db =
      (pairsSpec idx db.nextChunkId cs,
       { db with
           chunks := db.chunks ++ rowsSpec db.nextChunkId idx cs,
           nextChunkId := db.nextChunkId + cs.length }) := by
  induction cs with
  | nil =>
    intro idx db
    simp [insertChunksFrom, pairsSpec, rowsSpec]
  | cons c rest ih =>
    intro idx db
    simp [insertChunksFrom, insert_chunk, pairsSpec, rowsSpec, ih, List.append_assoc]
    omega

/-- The recorded mapping is exactly the function sending each index in
the enumerated range to its consecutive identity. -/
theorem dictGet_pairsSpec (cs : List String) : ∀ (idx firstId k : Nat),
    dictGet (pairsSpec idx firstId cs) k =
      if idx ≤ k ∧ k < idx + cs.length then some (firstId + (k - idx)) else none := by
  induction cs with
  | nil =>
    intro idx firstId k
    simp only [pairsSpec, dictGet, List.length_nil]
    rw [if_neg (by omega)]
  | cons c rest ih =>
    intro idx firstId k
    simp only [pairsSpec, dictGet, List.length_cons, ih]
    by_cases h : idx = k
    · subst h
      rw [if_pos rfl, if_pos (by omega)]
      simp
    · rw [if_neg h]
      by_cases h2 : idx + 1 ≤ k ∧ k < idx + 1 + rest.length
      · rw [if_pos h2, if_pos (by omega)]
        congr 1
        omega
      · rw [if_neg h2, if_neg (by omega)]

/-! Claim theorems. -/

/-- C5: for every state with previous chunk `p` and current chunk `c`,
the text window the overlap-window recognition step sends to the
collaborator is the trailing third of `p` — the suffix of `p` starting
at index `2 * (p.length / 3)` — concatenated with a single space with
the full current chunk `c`; the node then stores the collaborator's
answer on that window (defaulting to the empty list) and changes
nothing else. -/
theorem overlap_window_correct
    (recognize : String → Option (List LastAppearingCharacter)) (s : State) :
    first_name_querier recognize s =
      { s with last_appearing_characters := (
          some ((recognize (spec_overlap_window s.previous_chunk s.current_chunk)).getD [])) } :=
  rfl

/-- C6: for every state with previous summary `t` and current chunk `c`,
the summary-refresh step sends the collaborator as input text exactly
the trailing third of `t` — the suffix of `t` starting at index
`2 * (t.length / 3)` — concatenated with a single space with `c`, and
the returned summary unconditionally replaces the old one in the state
(no other field changes, so no history of summaries is kept). -/
theorem summary_window_replaces
    (summarize : String → Option (List LastAppearingCharacter) → String) (s : State) :
    summarizer summarize s =
      { s with last_summary := (
          summarize (spec_summary_window s.last_summary s.current_chunk)
            s.last_appearing_characters) } :=
  rfl

/-- C4: for every collaborator response lacking a recognizable character
list (modelled as `none`), each recognition step — overlap-window and
summary-window — yields an empty list for `last_appearing_characters`,
never `none` and never an error. -/
theorem recognition_missing_characters_empty :
    (∀ (recognize : String → Option (List LastAppearingCharacter)) (s : State),
        recognize (spec_overlap_window s.previous_chunk s.current_chunk) = none →
        (first_name_querier recognize s).last_appearing_characters = some []) ∧
    (∀ (recognize : String → Option (List LastAppearingCharacter)) (s : State),
        recognize s.last_summary = none →
        (second_name_querier recognize s).last_appearing_characters = some []) := by
  constructor
  · intro r s h
    simp [first_name_querier, spec_overlap_window] at h ⊢
    simp [h]
  · intro r s h
    simp [second_name_querier, h]

/-- Witness for C4: both recognition steps on a collaborator that never
returns a character list yield the empty mention list. -/
theorem recognition_missing_characters_empty_witness :
    (first_name_querier (fun _ => none) (initial_state "book.txt")).last_appearing_characters
        = some [] ∧
    (second_name_querier (fun _ => none) (initial_state "book.txt")).last_appearing_characters
        = some [] :=
  ⟨recognition_missing_characters_empty.1 (fun _ => none) (initial_state "book.txt") rfl,
   recognition_missing_characters_empty.2 (fun _ => none) (initial_state "book.txt") rfl⟩

/-- C2 counterexample: a collaborator response carrying an **empty**
profile list passes the decline guard of `profile_refresher` (which
catches only a missing response, a missing `profiles` attribute, or a
`None` profile list) and takes the success branch: on a state whose
`last_profiles` holds the enriched Ali record, the step replaces the
list with `[]` — not "the previous cycle's last_profiles list with the
same content" — while still inserting zero rows. -/
theorem enrichment_empty_result_replaces :
    (profile_refresher (fun _ _ => some []) synthState ⟨[], 1, [], 0⟩).1.last_profiles
        = some [] ∧
    (profile_refresher (fun _ _ => some []) synthState ⟨[], 1, [], 0⟩).2
        = ⟨[], 1, [], 0⟩ ∧
    synthState.last_profiles = some [enrichedAli] ∧
    some ([] : List Profile) ≠ some [enrichedAli] := by
  decide

/-- C2 amended: for every pipeline state, when the enrichment
collaborator declines — no response, a response lacking a `profiles`
attribute, or a `None` profile list, all modelled as `none` — the
enrichment step does not raise or halt (the step is a total function):
it returns the state with `last_profiles` unchanged and inserts zero
rows into the profile-snapshot store.  When the collaborator instead
returns an **empty** profile list, the step likewise raises nothing and
inserts zero rows, but it replaces `last_profiles` with the empty
list. -/
theorem enrichment_decline_vs_empty
    (enrich : String → Option (List Profile) → Option (List ProfileData))
    (s : State) (db : DB) :
    (enrich s.last_summary s.last_profiles = none →
      profile_refresher enrich s db = (s, db)) ∧
    (enrich s.last_summary s.last_profiles = some [] →
      profile_refresher enrich s db = ({ s with last_profiles := some [] }, db)) := by
  constructor
  · intro h
    simp [profile_refresher, h]
  · intro h
    cases hd : dictGet s.chunk_index_to_id s.chunk_index <;>
      simp [profile_refresher, h, hd]

/-- Witness for C2's amended claim: on a concrete state holding an
enriched profile, a collaborator that declines leaves state and store
untouched, and one that answers with an empty list empties
`last_profiles` while leaving the store untouched. -/
theorem enrichment_decline_vs_empty_witness :
    profile_refresher (fun _ _ => none) synthState ⟨[], 1, [], 0⟩ =
      (synthState, ⟨[], 1, [], 0⟩) ∧
    profile_refresher (fun _ _ => some []) synthState ⟨[], 1, [], 0⟩ =
      ({ synthState with last_profiles := some [] }, ⟨[], 1, [], 0⟩) :=
  ⟨(enrichment_decline_vs_empty (fun _ _ => none) synthState ⟨[], 1, [], 0⟩).1 rfl,
   (enrichment_decline_vs_empty (fun _ _ => some []) synthState ⟨[], 1, [], 0⟩).2 rfl⟩

/-- C3: advancing the chunk cursor past exhaustion sets the terminal
`no_more_chunks` flag, every subsequent advance is a no-op rather than
an error — it sets the flag again and leaves every other state field
(previous chunk, current chunk, chunk index, summary, profiles,
mentions, mapping) unchanged — and the orchestrator loop then reaches
`done` without running the remaining per-cycle states (the store is
untouched). -/
theorem chunk_advance_past_exhaustion (s : State) (h : s.chunk_generator = []) :
    chunk_updater s = { s with no_more_chunks := true } ∧
    chunk_updater (chunk_updater s) = chunk_updater s ∧
    (∀ (recognize : String → Option (List LastAppearingCharacter))
       (enrich : String → Option (List Profile) → Option (List ProfileData))
       (summarize : String → Option (List LastAppearingCharacter) → String)
       (db : DB) (fuel : Nat),
       runLoop recognize enrich summarize (fuel + 1) s db =
         ({ s with no_more_chunks := true }, db)) := by
  have h1 : chunk_updater s = { s with no_more_chunks := true } := by
    simp [chunk_updater, h]
  refine ⟨h1, ?_, ?_⟩
  · rw [h1]
    simp [chunk_updater, h]
  · intro recognize enrich summarize db fuel
    simp [runLoop, h1]

/-- Witness for C3: on a state with an exhausted generator the advance
sets the flag, repeats as a no-op, and the loop terminates at once. -/
theorem chunk_advance_past_exhaustion_witness :
    chunk_updater (initial_state "done.txt") =
      { initial_state "done.txt" with no_more_chunks := true } ∧
    chunk_updater (chunk_updater (initial_state "done.txt")) =
      chunk_updater (initial_state "done.txt") ∧
    runLoop (fun _ => none) (fun _ _ => none) (fun _ _ => "") 1
        (initial_state "done.txt") ⟨[], 1, [], 0⟩ =
      ({ initial_state "done.txt" with no_more_chunks := true }, ⟨[], 1, [], 0⟩) :=
  ⟨(chunk_advance_past_exhaustion (initial_state "done.txt") rfl).1,
   (chunk_advance_past_exhaustion (initial_state "done.txt") rfl).2.1,
   (chunk_advance_past_exhaustion (initial_state "done.txt") rfl).2.2
     (fun _ => none) (fun _ _ => none) (fun _ _ => "") ⟨[], 1, [], 0⟩ 0⟩

/-- C7: if the input file path is empty or names no existing file, the
Chunker raises a not-found error before producing any chunk: the store
is returned untouched (no chunk row inserted) and no index-to-identity
mapping entry is created. -/
theorem chunker_fails_fast (path_exists : String → Bool)
    (read_file : String → String) (chunk_text : String → List String)
    (s : State) (db : DB)
    (h : s.file_path = "" ∨ path_exists s.file_path = false) :
    chunker path_exists read_file chunk_text s db =
      (.error ("File not found: " ++ s.file_path), db) := by
  unfold chunker
  rw [if_pos h]

/-- Witness for C7: a missing path fails with the not-found error and an
unchanged store. -/
theorem chunker_fails_fast_witness :
    chunker (fun _ => false) (fun _ => "") (fun _ => [])
        (initial_state "missing.txt") ⟨[], 1, [], 0⟩ =
      (.error ("File not found: " ++ "missing.txt"), ⟨[], 1, [], 0⟩) :=
  chunker_fails_fast (fun _ => false) (fun _ => "") (fun _ => [])
    (initial_state "missing.txt") ⟨[], 1, [], 0⟩ (Or.inr rfl)

/-- C8 counterexample: on a state whose `last_profiles` already
represents "Ali" by an enriched record, the Profile Synthesis Step
nonetheless re-creates "Ali" as a fresh skeleton and discards the
represented record, contradicting "profiles already represented are not
re-created". -/
theorem synthesis_recreates_existing :
    (profile_retriever_creator synthState ⟨[], 1, [], 0⟩).map
        (fun r => r.1.last_profiles) =
      some (some [mkSkeleton ⟨"Ali", "protagonist"⟩]) ∧
    enrichedAli ∈ synthState.last_profiles.getD [] ∧
    mkSkeleton ⟨"Ali", "protagonist"⟩ ≠ enrichedAli := by
  decide

/-- C8 amended: after the Profile Synthesis Step, `last_profiles` is
exactly one skeleton Profile — only name and hint populated, every
other field empty/default — per `EntityMention` of
`last_appearing_characters`, in order; any previously held profiles,
including ones for already-represented names, are discarded; the step
performs no persistence (the store is returned unchanged). -/
theorem synthesis_rebuilds_all_mentions (s : State) (db : DB)
    (ms : List LastAppearingCharacter)
    (h : s.last_appearing_characters = some ms) :
    profile_retriever_creator s db =
      some ({ s with last_profiles := some (ms.map mkSkeleton) }, db) := by
  simp [profile_retriever_creator, h]

/-- Witness for C8's amended claim at a concrete state. -/
theorem synthesis_rebuilds_all_mentions_witness :
    profile_retriever_creator synthState ⟨[], 1, [], 0⟩ =
      some ({ synthState with
                last_profiles := some ([⟨"Ali", "protagonist"⟩].map mkSkeleton) },
            ⟨[], 1, [], 0⟩) :=
  synthesis_rebuilds_all_mentions synthState ⟨[], 1, [], 0⟩ [⟨"Ali", "protagonist"⟩] rfl

/-- C9: the Profile Synthesis Step is idempotent — running it once
replaces `last_profiles` with the mentions' skeleton list, and running
it again on the resulting state (whose mention list is unchanged)
returns that state with the identical skeleton records. -/
theorem synthesis_idempotent (s : State) (db db2 : DB)
    (ms : List LastAppearingCharacter)
    (h : s.last_appearing_characters = some ms) :
    profile_retriever_creator s db =
      some ({ s with last_profiles := some (ms.map mkSkeleton) }, db) ∧
    profile_retriever_creator { s with last_profiles := some (ms.map mkSkeleton) } db2 =
      some ({ s with last_profiles := some (ms.map mkSkeleton) }, db2) := by
  constructor <;> simp [profile_retriever_creator, h]

/-- Witness for C9 at a concrete state. -/
theorem synthesis_idempotent_witness :
    profile_retriever_creator synthState ⟨[], 1, [], 0⟩ =
      some ({ synthState with
                last_profiles := some ([⟨"Ali", "protagonist"⟩].map mkSkeleton) },
            ⟨[], 1, [], 0⟩) ∧
    profile_retriever_creator
        { synthState with
            last_profiles := some ([⟨"Ali", "protagonist"⟩].map mkSkeleton) }
        ⟨[], 5, [], 7⟩ =
      some ({ synthState with
                last_profiles := some ([⟨"Ali", "protagonist"⟩].map mkSkeleton) },
            ⟨[], 5, [], 7⟩) :=
  synthesis_idempotent synthState ⟨[], 1, [], 0⟩ ⟨[], 5, [], 7⟩
    [⟨"Ali", "protagonist"⟩] rfl

/-- C10: the chunk-index-to-identity map is fully materialized by the
chunker before any cycle runs — on a readable path the chunker returns
the produced chunks with a mapping sending exactly the indices
`0..N-1` to the consecutive store-assigned identities, having appended
the `N` chunk rows to the store in that order — and every subsequent
step function (both recognition steps, synthesis, enrichment, chunk
advance, summarize) returns the map unchanged. -/
theorem chunk_map_materialized_and_preserved :
    (∀ (path_exists : String → Bool) (read_file : String → String)
       (chunk_text : String → List String) (s : State) (db : DB),
       s.file_path ≠ "" → path_exists s.file_path = true →
       (chunker path_exists read_file chunk_text s db =
         (.ok { s with
                  chunk_generator := chunk_text (read_file s.file_path)
                  chunk_index_to_id := (
                    pairsSpec 0 db.nextChunkId (chunk_text (read_file s.file_path))) },
          { db with
              chunks := (
                db.chunks ++ rowsSpec db.nextChunkId 0 (chunk_text (read_file s.file_path)))
              nextChunkId := db.nextChunkId + (chunk_text (read_file s.file_path)).length }) ∧
        ∀ k, dictGet (pairsSpec 0 db.nextChunkId (chunk_text (read_file s.file_path))) k =
          if k < (chunk_text (read_file s.file_path)).length then
            some (db.nextChunkId + k)
          else none)) ∧
    (∀ (r : String → Option (List LastAppearingCharacter)) (s : State),
       (first_name_querier r s).chunk_index_to_id = s.chunk_index_to_id) ∧
    (∀ (r : String → Option (List LastAppearingCharacter)) (s : State),
       (second_name_querier r s).chunk_index_to_id = s.chunk_index_to_id) ∧
    (∀ (s : State) (db : DB) (res : State × DB),
       profile_retriever_creator s db = some res →
       res.1.chunk_index_to_id = s.chunk_index_to_id) ∧
    (∀ (e : String → Option (List Profile) → Option (List ProfileData))
       (s : State) (db : DB),
       (profile_refresher e s db).1.chunk_index_to_id = s.chunk_index_to_id) ∧
    (∀ s : State, (chunk_updater s).chunk_index_to_id = s.chunk_index_to_id) ∧
    (∀ (m : String → Option (List LastAppearingCharacter) → String) (s : State),
       (summarizer m s).chunk_index_to_id = s.chunk_index_to_id) := by
  refine ⟨?_, ?_, ?_, ?_, ?_, ?_, ?_⟩
  · intro path_exists read_file chunk_text s db h1 h2
    constructor
    · unfold chunker
      rw [if_neg (by simp [h1, h2])]
      simp [insertChunksFrom_eq]
    · intro k
      rw [dictGet_pairsSpec]
      by_cases hk : k < (chunk_text (read_file s.file_path)).length
      · rw [if_pos (by omega), if_pos hk]
        simp
      · rw [if_neg (by omega), if_neg hk]
  · intro r s
    rfl
  · intro r s
    rfl
  · intro s db res h
    cases hm : s.last_appearing_characters with
    | none => simp [profile_retriever_creator, hm] at h
    | some chars =>
      simp only [profile_retriever_creator, hm, Option.some.injEq] at h
      subst h
      rfl
  · intro e s db
    unfold profile_refresher
    cases he : e s.last_summary s.last_profiles <;> simp
  · intro s
    unfold chunk_updater
    cases s.chunk_generator <;> rfl
  · intro m s
    rfl

/-- Witness for C10: the mapping of a concrete two-chunk run sends index
1 to identity 2, a readable path produces the materialized store, and
the synthesis step leaves a concrete mapping unchanged. -/
theorem chunk_map_materialized_and_preserved_witness :
    dictGet (pairsSpec 0 1 ["a", "b"]) 1 = some 2 ∧
    (chunker (fun _ => true) (fun _ => "ab") (fun _ => ["a", "b"])
        (initial_state "doc.txt") ⟨[], 1, [], 0⟩).2.nextChunkId = 3 ∧
    ({ synthState with
         last_profiles := some ([⟨"Ali", "protagonist"⟩].map mkSkeleton) } : State).chunk_index_to_id
      = synthState.chunk_index_to_id := by
  refine ⟨?_, ?_, ?_⟩
  · exact (chunk_map_materialized_and_preserved.1 (fun _ => true) (fun _ => "ab")
      (fun _ => ["a", "b"]) (initial_state "doc.txt") ⟨[], 1, [], 0⟩
      (by decide) rfl).2 1
  · rw [(chunk_map_materialized_and_preserved.1 (fun _ => true) (fun _ => "ab")
      (fun _ => ["a", "b"]) (initial_state "doc.txt") ⟨[], 1, [], 0⟩
      (by decide) rfl).1]
    rfl
  · exact chunk_map_materialized_and_preserved.2.2.2.1 synthState ⟨[], 1, [], 0⟩ _ rfl

/-- C1 (the code evaluated at the failing input): on the spec's own
two-chunk document — chunk 1 mentioning Ali, chunk 2 mentioning Ali and
Sara, with a collaborator that recognizes those names and enriches every
profile on both cycles — the run terminates with the in-memory profile
list holding enriched Ali and Sara, yet the profile-snapshot store holds
exactly one row, for "Ali" keyed to chunk 2's identity (2): no row is
keyed to chunk 1's identity (1) and no row for "Sara" exists, because
`profile_refresher` looks the pre-incremented 1-based `chunk_index` up
in the 0-based `chunk_index_to_id` mapping. -/
theorem snapshot_keying_off_by_one :
    (scenarioRun.toOption.map fun r =>
      (r.2.profileRows.map (fun (p : ProfileRow) => (p.chunk_id, p.profile.name)),
       r.2.chunks.map (fun (c : ChunkRow) => (c.chunk_id, c.chunk_index)),
       (r.1.last_profiles.getD []).map (fun (p : Profile) => p.name),
       r.1.no_more_chunks)) =
      some ([(2, "Ali")], [(1, 0), (2, 1)], ["Ali", "Sara"], true) := by
  decide

end AIWorkflow
